import Mathlib

/-!
# FastLED_single: a one-light sketch for an addressable LED strip

A shallow embedding of `src/FastLED_single.cpp` (`setup`, `loop`,
`turnOnOneLight` and the global `leds`), together with a model of the driver
the sketch calls (`FastLED.addLeds`, `setBrightness`,
`setMaxPowerInVoltsAndMilliamps`, `show`).  The driver is library code that the
repository does not contain; it is modelled from the specification
(`spec.md`, sections 3, 4.1 and 4.2) in exact rational arithmetic.
-/

namespace FastLEDSingle

/-! ## Constants of the sketch (the `#define` lines) -/

/-- The line `#define NUM_LEDS 298`. -/
def NUM_LEDS : Nat := 298

/-- The line `#define DATA_PIN 11`. -/
def DATA_PIN : Nat := 11

/-- Chipsets the sketch can name; only `WS2812` is used. -/
inductive Chipset where
  | WS2812
  deriving DecidableEq

/-- Channel order: a permutation of red, green and blue. -/
inductive EOrder where
  | RGB | RBG | GRB | GBR | BRG | BGR
  deriving DecidableEq

/-- The line `#define LED_TYPE WS2812`. -/
def LED_TYPE : Chipset := Chipset.WS2812

/-- The line `#define COLOR_ORDER GRB`. -/
def COLOR_ORDER : EOrder := EOrder.GRB

/-- The line `#define BRIGHTNESS 40`. -/
def BRIGHTNESS : Int := 40

/-- The line `#define FRAMES_PER_SECOND 120` (defined by the sketch, never used). -/
def FRAMES_PER_SECOND : Nat := 120

/-! ## Data model -/

/-- One pixel of the buffer: the red, green and blue channel of a `CRGB`.
The channels are 8-bit in the program; every colour the sketch builds has
channels below 256. -/
structure CRGB where
  r : Nat
  g : Nat
  b : Nat
  deriving DecidableEq

/-- The zero-initialised pixel `(0,0,0)`. -/
def CRGB.Black : CRGB := ⟨0, 0, 0⟩

/-- The converting constructor `CRGB(uint32_t colorcode)` of the FastLED
header: the code is read as `0xRRGGBB`.  It is the only constructor an `int`
converts to implicitly, so it is the one `CRGB c = <int expression>` selects. -/
def CRGB.ofColorCode (colorcode : Nat) : CRGB :=
  ⟨(colorcode / 65536) % 256, (colorcode / 256) % 256, colorcode % 256⟩

/-- The explicit three-channel constructor `CRGB(r, g, b)`, each argument
truncated to 8 bits. -/
def CRGB.ofRGB (ir ig ib : Nat) : CRGB := ⟨ir % 256, ig % 256, ib % 256⟩

/-- The C++ comma expression `(a, b, c)`: the operands are evaluated left to
right and the value of the expression is the value of the last one. -/
def commaExpr (_a _b c : Nat) : Nat := c

/-- The ways a call can go wrong.  `indexError` is the rejection the
specification gives `PixelBuffer.set`/`get`; `outOfBoundsWrite` is the C++
array write outside `leds`, to which the language assigns no behaviour;
`transmissionError` is a failed bus write inside `show`. -/
inductive Fault where
  | indexError
  | outOfBoundsWrite
  | transmissionError
  deriving DecidableEq

/-- Per-channel scale factors of a colour-correction profile. -/
structure Correction where
  r : ℚ
  g : ℚ
  b : ℚ
  deriving DecidableEq

/-- The profile that leaves every channel as it is. -/
def Correction.identity : Correction := ⟨1, 1, 1⟩

/-- Supply voltage and maximal current of the power budget. -/
structure PowerBudget where
  volts : ℚ
  maxMilliamps : ℚ
  deriving DecidableEq

/-- The current-draw table of the driver: milliamps of a fully lit red, green
and blue channel, and the fixed overhead of the controller. -/
structure CurrentModel where
  redmA : ℚ
  greenmA : ℚ
  bluemA : ℚ
  overheadmA : ℚ
  deriving DecidableEq

/-- What the sketch takes from the library without fixing it itself: the value
of the constant `TypicalLEDStrip` and the current-draw table of the driver. -/
structure Library where
  TypicalLEDStrip : Correction
  current : CurrentModel
  deriving DecidableEq

/-- A pixel as transmitted: the three channel values after correction and
brightness scaling. -/
structure OutPixel where
  r : ℚ
  g : ℚ
  b : ℚ
  deriving DecidableEq

/-- A transmitted frame: one `OutPixel` per light, in strip order. -/
abbrev Frame := List OutPixel

/-- The output configuration the driver owns. -/
structure StripDriver where
  chipset : Chipset
  pin : Nat
  channelOrder : EOrder
  numLeds : Nat
  correction : Correction
  brightness : Nat
  budget : Option PowerBudget

/-- The state of the running sketch: the global array `leds`, the driver
configuration, the frames the sink has received (latest first), and the glue
`setup` touches (elapsed delay, power-indicator pin, serial baud rate). -/
structure Sketch where
  leds : List CRGB
  driver : StripDriver
  sink : List Frame
  elapsedMs : Nat
  indicatorPin : Option Nat
  serialBaud : Option Nat

/-- The sketch at power-up: `CRGB leds[NUM_LEDS]` has static storage and is
zero-initialised; the driver fields are placeholders, each overwritten by
`setup`. -/
def boot : Sketch :=
  { leds := List.replicate NUM_LEDS CRGB.Black
    driver :=
      { chipset := Chipset.WS2812, pin := 0, channelOrder := EOrder.RGB, numLeds := 0
        correction := Correction.identity, brightness := 255, budget := none }
    sink := []
    elapsedMs := 0
    indicatorPin := none
    serialBaud := none }

/-! ## The driver, modelled from the specification -/

/-- Modelled from the spec: `PixelBuffer.set(index, pixel)` of section 4.1,
which the repository does not implement: "writes pixel at index. Fails with
IndexError if index ∉ [0, N-1]", with `N` the length of the buffer. -/
def PixelBuffer.set (buf : List CRGB) (index : Int) (pixel : CRGB) : Except Fault (List CRGB) :=
  if 0 ≤ index ∧ index < buf.length then Except.ok (buf.set index.toNat pixel)
  else Except.error Fault.indexError

/-- Modelled from the spec: `FastLED.addLeds<LED_TYPE, DATA_PIN, COLOR_ORDER>(leds, n)`,
library code: it registers the strip (chipset, pin, channel order, number of
lights) with the driver, the `configure` of section 4.2. -/
def FastLED_addLeds (chipset : Chipset) (pin : Nat) (order : EOrder) (n : Nat)
    (s : Sketch) : Sketch :=
  { s with driver := { s.driver with chipset := chipset, pin := pin, channelOrder := order,
                                     numLeds := n } }

/-- Modelled from the spec: `.setCorrection(profile)`, library code: it stores
the colour-correction profile (`configure` of section 4.2). -/
def setCorrection (profile : Correction) (s : Sketch) : Sketch :=
  { s with driver := { s.driver with correction := profile } }

/-- Modelled from the spec: `FastLED.setBrightness(b)`, library code: "sets
global scalar, clamped to [0,255]". -/
def FastLED_setBrightness (b : Int) (s : Sketch) : Sketch :=
  { s with driver := { s.driver with brightness := (min (max b 0) 255).toNat } }

/-- Modelled from the spec: `FastLED.setMaxPowerInVoltsAndMilliamps(v, mA)`,
library code: `setPowerBudget(volts, milliamps)`, "sets the limiting policy". -/
def FastLED_setMaxPowerInVoltsAndMilliamps (volts milliamps : Nat) (s : Sketch) : Sketch :=
  { s with driver := { s.driver with
      budget := some { volts := (volts : ℚ), maxMilliamps := (milliamps : ℚ) } } }

/-- Modelled from the spec: step 1 of `show` for one pixel: "corrected value =
raw × correction × (brightness/255)", channel by channel. -/
def scalePixel (c : Correction) (brightness : ℚ) (p : CRGB) : OutPixel :=
  { r := (p.r : ℚ) * c.r * (brightness / 255)
    g := (p.g : ℚ) * c.g * (brightness / 255)
    b := (p.b : ℚ) * c.b * (brightness / 255) }

/-- Modelled from the spec: step 1 of `show` for the whole buffer; one output
pixel per buffer pixel, in buffer order. -/
def render (c : Correction) (brightness : ℚ) (buf : List CRGB) : Frame :=
  buf.map (scalePixel c brightness)

/-- Modelled from the spec: the per-channel current model of step 2 for one
pixel: the milliamps of each fully lit channel "scaled by each pixel's corrected
brightness fraction". -/
def pixelCurrent (m : CurrentModel) (q : OutPixel) : ℚ :=
  m.redmA * (q.r / 255) + m.greenmA * (q.g / 255) + m.bluemA * (q.b / 255)

/-- Modelled from the spec: the part of the estimate of step 2 that the lights
draw: the "sum over pixels of a per-channel current model". -/
def ledCurrent (m : CurrentModel) (f : Frame) : ℚ :=
  (f.map (pixelCurrent m)).sum

/-- Modelled from the spec: step 2 of `show`: "total current = sum over pixels
of a per-channel current model ..., plus a fixed controller overhead". -/
def estimateCurrent (m : CurrentModel) (f : Frame) : ℚ :=
  ledCurrent m f + m.overheadmA

/-- The part of `leds` registered with the driver: its first `numLeds` pixels. -/
def registered (s : Sketch) : List CRGB := s.leds.take s.driver.numLeds

/-- Modelled from the spec: the frame before power limiting: the registered
buffer with correction and the stored brightness applied. -/
def naiveFrame (s : Sketch) : Frame :=
  render s.driver.correction (s.driver.brightness : ℚ) (registered s)

/-- Modelled from the spec: step 3 of `show`: "If estimated current >
budget.maxMilliamps, compute scale = budget.maxMilliamps / estimated"; the
factor is 1 when the estimate is within the budget or no budget is set. -/
def powerScale (m : CurrentModel) (s : Sketch) : ℚ :=
  match s.driver.budget with
  | none => 1
  | some budget =>
    if estimateCurrent m (naiveFrame s) > budget.maxMilliamps then
      budget.maxMilliamps / estimateCurrent m (naiveFrame s)
    else 1

/-- Modelled from the spec: the brightness used for this frame: the stored
brightness with the scale of step 3 re-applied "for this frame only". -/
def frameBrightness (m : CurrentModel) (s : Sketch) : ℚ :=
  (s.driver.brightness : ℚ) * powerScale m s

/-- Modelled from the spec: the frame `show` computes (steps 1 to 3): the
registered buffer with correction and the frame brightness applied. -/
def showFrame (m : CurrentModel) (s : Sketch) : Frame :=
  render s.driver.correction (frameBrightness m s) (registered s)

/-- Modelled from the spec: `StripDriver.show` of section 4.2, library code.
It computes the frame and hands it to the bus; `busOk` is the result of that
bus write.  The sink "either receives a complete buffer or the call fails"
with a TransmissionError; the stored configuration is not changed. -/
def StripDriver_show (m : CurrentModel) (busOk : Bool) (s : Sketch) : Except Fault Frame :=
  if busOk then Except.ok (showFrame m s) else Except.error Fault.transmissionError

/-- The call `FastLED.show();` as the sketch makes it: the result is discarded
(the call is a statement), so a failed transmission leaves the state as it
was; a successful one adds the frame to the sink.  The driver borrows the
buffer "read-only during show": neither `leds` nor the configuration changes. -/
def FastLED_show (L : Library) (busOk : Bool) (s : Sketch) : Sketch :=
  match StripDriver_show L.current busOk s with
  | Except.ok frame => { s with sink := frame :: s.sink }
  | Except.error _ => s

/-! ## The sketch -/

/-- The call `delay(ms)`: the sketch waits. -/
def delay (ms : Nat) (s : Sketch) : Sketch := { s with elapsedMs := s.elapsedMs + ms }

/-- The call `set_max_power_indicator_LED(pin)`. -/
def set_max_power_indicator_LED (pin : Nat) (s : Sketch) : Sketch :=
  { s with indicatorPin := some pin }

/-- The call `Serial.begin(baud)`. -/
def Serial_begin (baud : Nat) (s : Sketch) : Sketch := { s with serialBaud := some baud }

/-- The function `void setup()`. -/
def setup (L : Library) (s : Sketch) : Sketch :=
  let s := delay 2000 s
  let s := setCorrection L.TypicalLEDStrip
    (FastLED_addLeds LED_TYPE DATA_PIN COLOR_ORDER NUM_LEDS s)
  let s := FastLED_setBrightness BRIGHTNESS s
  let s := FastLED_setMaxPowerInVoltsAndMilliamps 5 1500 s
  let s := set_max_power_indicator_LED 13 s
  Serial_begin 115200 s

/-- The function `void turnOnOneLight(CRGB color, int index)`: the raw array write
`leds[index] = color;` followed by `FastLED.show();`.  The source has no bounds
check: inside `[0, NUM_LEDS)` the write replaces one element; outside, it is an
out-of-bounds write with no defined behaviour. -/
def turnOnOneLight (L : Library) (busOk : Bool) (color : CRGB) (index : Int)
    (s : Sketch) : Except Fault Sketch :=
  if 0 ≤ index ∧ index < (NUM_LEDS : Int) then
    Except.ok (FastLED_show L busOk { s with leds := s.leds.set index.toNat color })
  else Except.error Fault.outOfBoundsWrite

/-- The local `CRGB this_color = (74, 189, 224);` of `loop`: the initialiser is
a parenthesised comma expression, converted to `CRGB` implicitly. -/
def this_color : CRGB := CRGB.ofColorCode (commaExpr 74 189 224)

/-- The local `int this_index = 1;` of `loop`. -/
def this_index : Int := 1

/-- The function `void loop()`. -/
def loop (L : Library) (busOk : Bool) (s : Sketch) : Except Fault Sketch :=
  turnOnOneLight L busOk this_color this_index s

/-- After `setup()` has run, `loop()` runs once for each entry of `bus`, the
entry being the result of the bus write in that iteration. -/
def runLoops (L : Library) : List Bool → Sketch → Except Fault Sketch
  | [], s => Except.ok s
  | busOk :: rest, s =>
    match loop L busOk s with
    | Except.ok s' => runLoops L rest s'
    | Except.error e => Except.error e

/-- One call into the sketch: an iteration of `loop`, or a direct call of
`turnOnOneLight`. -/
inductive Call where
  | loop (busOk : Bool)
  | turnOnOneLight (busOk : Bool) (color : CRGB) (index : Int)

/-- The effect of one call. -/
def Call.run (L : Library) : Call → Sketch → Except Fault Sketch
  | Call.loop busOk, s => FastLEDSingle.loop L busOk s
  | Call.turnOnOneLight busOk color index, s => FastLEDSingle.turnOnOneLight L busOk color index s

/-- A call whose index is inside `leds`. -/
def Call.inBounds : Call → Prop
  | Call.loop _ => True
  | Call.turnOnOneLight _ _ index => 0 ≤ index ∧ index < (NUM_LEDS : Int)

/-- A sequence of calls, run in order; it stops at the first fault. -/
def runCalls (L : Library) : List Call → Sketch → Except Fault Sketch
  | [], s => Except.ok s
  | c :: rest, s =>
    match c.run L s with
    | Except.ok s' => runCalls L rest s'
    | Except.error e => Except.error e

/-! ## A concrete library, for evaluating the model -/

/-- A concrete library instance: `TypicalLEDStrip` as FastLED defines it
(`0xFFB0F0`, the factors 255/255, 176/255 and 240/255) and a current table of
20 mA for each fully lit channel with 100 mA of fixed controller overhead. -/
def sampleLibrary : Library :=
  { TypicalLEDStrip := ⟨1, 176 / 255, 240 / 255⟩
    current := ⟨20, 20, 20, 100⟩ }

/-- The same current table with the identity colour correction in place of
`TypicalLEDStrip`. -/
def identityLibrary : Library :=
  { TypicalLEDStrip := Correction.identity
    current := ⟨20, 20, 20, 100⟩ }

/-! ## Basic facts about the driver calls and the sketch -/

theorem FastLED_show_leds (L : Library) (busOk : Bool) (s : Sketch) :
    (FastLED_show L busOk s).leds = s.leds := by
  cases busOk <;> rfl

theorem FastLED_show_driver (L : Library) (busOk : Bool) (s : Sketch) :
    (FastLED_show L busOk s).driver = s.driver := by
  cases busOk <;> rfl

theorem FastLED_show_sink_ok (L : Library) (s : Sketch) :
    (FastLED_show L true s).sink = showFrame L.current s :: s.sink := rfl

theorem setup_leds (L : Library) (s : Sketch) : (setup L s).leds = s.leds := rfl

theorem setup_sink (L : Library) (s : Sketch) : (setup L s).sink = s.sink := rfl

theorem setup_driver (L : Library) (s : Sketch) :
    (setup L s).driver =
      { chipset := Chipset.WS2812, pin := 11, channelOrder := EOrder.GRB, numLeds := 298
        correction := L.TypicalLEDStrip, brightness := 40
        budget := some { volts := 5, maxMilliamps := 1500 } } := by
  simp [setup, Serial_begin, set_max_power_indicator_LED, FastLED_setMaxPowerInVoltsAndMilliamps,
    FastLED_setBrightness, setCorrection, FastLED_addLeds, delay, LED_TYPE, DATA_PIN,
    COLOR_ORDER, NUM_LEDS, BRIGHTNESS]

theorem this_color_eq : this_color = ⟨0, 0, 224⟩ := by decide

theorem boot_leds_length : boot.leds.length = NUM_LEDS := List.length_replicate _ _

theorem turnOnOneLight_inBounds (L : Library) (busOk : Bool) (color : CRGB) (index : Int)
    (s : Sketch) (h0 : 0 ≤ index) (h1 : index < (NUM_LEDS : Int)) :
    turnOnOneLight L busOk color index s =
      Except.ok (FastLED_show L busOk { s with leds := s.leds.set index.toNat color }) := by
  unfold turnOnOneLight
  rw [if_pos ⟨h0, h1⟩]

theorem loop_eq (L : Library) (busOk : Bool) (s : Sketch) :
    loop L busOk s = Except.ok (FastLED_show L busOk { s with leds := s.leds.set 1 this_color }) := by
  unfold loop
  rw [turnOnOneLight_inBounds L busOk this_color this_index s (by decide) (by decide)]
  rfl

/-- What any number of `loop` iterations preserves: a run never faults, the
driver never changes, and from the first iteration on the buffer is the
original one with `this_color` written at index 1. -/
theorem runLoops_spec (L : Library) (bus : List Bool) (s : Sketch) :
    ∃ s', runLoops L bus s = Except.ok s' ∧ s'.driver = s.driver ∧
      s'.leds = (if bus = [] then s.leds else s.leds.set 1 this_color) := by
  induction bus generalizing s with
  | nil => exact ⟨s, rfl, rfl, by simp⟩
  | cons busOk rest ih =>
    obtain ⟨s', hrun, hdrv, hleds⟩ :=
      ih (FastLED_show L busOk { s with leds := s.leds.set 1 this_color })
    refine ⟨s', ?_, ?_, ?_⟩
    · simp only [runLoops, loop_eq]
      exact hrun
    · rw [hdrv, FastLED_show_driver]
    · rw [hleds, FastLED_show_leds]
      by_cases hrest : rest = []
      · simp [hrest]
      · simp [hrest, List.set_set]

theorem Call.run_inBounds (L : Library) (c : Call) (s : Sketch) (h : c.inBounds) :
    ∃ s', c.run L s = Except.ok s' ∧ s'.driver = s.driver ∧ s'.leds.length = s.leds.length := by
  cases c with
  | loop busOk =>
    exact ⟨_, loop_eq L busOk s, FastLED_show_driver _ _ _, by simp [FastLED_show_leds]⟩
  | turnOnOneLight busOk color index =>
    exact ⟨_, turnOnOneLight_inBounds L busOk color index s h.1 h.2, FastLED_show_driver _ _ _,
      by simp [FastLED_show_leds]⟩

theorem Call.run_driver (L : Library) (c : Call) (s s' : Sketch) (h : c.run L s = Except.ok s') :
    s'.driver = s.driver := by
  cases c with
  | loop busOk =>
    have h' : FastLEDSingle.loop L busOk s = Except.ok s' := h
    rw [loop_eq] at h'
    cases h'
    exact FastLED_show_driver _ _ _
  | turnOnOneLight busOk color index =>
    have h' : FastLEDSingle.turnOnOneLight L busOk color index s = Except.ok s' := h
    unfold FastLEDSingle.turnOnOneLight at h'
    split at h'
    · cases h'
      exact FastLED_show_driver _ _ _
    · cases h'

theorem runCalls_driver (L : Library) (calls : List Call) (s s' : Sketch)
    (h : runCalls L calls s = Except.ok s') : s'.driver = s.driver := by
  induction calls generalizing s with
  | nil =>
    cases h
    rfl
  | cons c rest ih =>
    simp only [runCalls] at h
    cases hc : c.run L s with
    | error e => rw [hc] at h; cases h
    | ok s1 =>
      rw [hc] at h
      rw [ih s1 h, Call.run_driver L c s s1 hc]

theorem runCalls_inBounds (L : Library) (calls : List Call) (s : Sketch)
    (h : ∀ c ∈ calls, c.inBounds) : ∃ s', runCalls L calls s = Except.ok s' := by
  induction calls generalizing s with
  | nil => exact ⟨s, rfl⟩
  | cons c rest ih =>
    obtain ⟨s1, h1, -, -⟩ := Call.run_inBounds L c s (h c (List.mem_cons_self _ _))
    obtain ⟨s2, h2⟩ := ih s1 (fun d hd => h d (List.mem_cons_of_mem _ hd))
    exact ⟨s2, by simp only [runCalls, h1]; exact h2⟩

/-! ## Facts about the frame computation -/

theorem render_length (c : Correction) (b : ℚ) (buf : List CRGB) :
    (render c b buf).length = buf.length := by
  simp [render]

theorem getElem?_render (c : Correction) (b : ℚ) (buf : List CRGB) (j : Nat) :
    (render c b buf)[j]? = (buf[j]?).map (scalePixel c b) := by
  simp [render]

theorem scalePixel_Black (c : Correction) (b : ℚ) : scalePixel c b CRGB.Black = ⟨0, 0, 0⟩ := by
  simp [scalePixel, CRGB.Black]

theorem scalePixel_mul (c : Correction) (b k : ℚ) (p : CRGB) :
    scalePixel c (b * k) p =
      ⟨k * (scalePixel c b p).r, k * (scalePixel c b p).g, k * (scalePixel c b p).b⟩ := by
  simp only [scalePixel, OutPixel.mk.injEq]
  refine ⟨?_, ?_, ?_⟩ <;> ring

theorem pixelCurrent_mul (m : CurrentModel) (c : Correction) (b k : ℚ) (p : CRGB) :
    pixelCurrent m (scalePixel c (b * k) p) = k * pixelCurrent m (scalePixel c b p) := by
  simp only [pixelCurrent, scalePixel]
  ring

theorem ledCurrent_cons (m : CurrentModel) (c : Correction) (b : ℚ) (p : CRGB)
    (buf : List CRGB) :
    ledCurrent m (render c b (p :: buf)) =
      pixelCurrent m (scalePixel c b p) + ledCurrent m (render c b buf) := by
  simp [ledCurrent, render]

theorem ledCurrent_mul (m : CurrentModel) (c : Correction) (b k : ℚ) (buf : List CRGB) :
    ledCurrent m (render c (b * k) buf) = k * ledCurrent m (render c b buf) := by
  induction buf with
  | nil => simp [ledCurrent, render]
  | cons p rest ih => rw [ledCurrent_cons, ledCurrent_cons, ih, pixelCurrent_mul]; ring

theorem ledCurrent_replicate (m : CurrentModel) (c : Correction) (b : ℚ) (n : Nat) (p : CRGB) :
    ledCurrent m (render c b (List.replicate n p)) = n * pixelCurrent m (scalePixel c b p) := by
  induction n with
  | zero => simp [ledCurrent, render]
  | succ n ih =>
    rw [List.replicate_succ, ledCurrent_cons, ih]
    push_cast
    ring

theorem pixelCurrent_nonneg (m : CurrentModel) (c : Correction) (b : ℚ) (p : CRGB)
    (hm : 0 ≤ m.redmA ∧ 0 ≤ m.greenmA ∧ 0 ≤ m.bluemA)
    (hc : 0 ≤ c.r ∧ 0 ≤ c.g ∧ 0 ≤ c.b) (hb : 0 ≤ b) :
    0 ≤ pixelCurrent m (scalePixel c b p) := by
  obtain ⟨hr, hg, hbl⟩ := hm
  obtain ⟨cr, cg, cb⟩ := hc
  have hpr : (0 : ℚ) ≤ (p.r : ℚ) := Nat.cast_nonneg _
  have hpg : (0 : ℚ) ≤ (p.g : ℚ) := Nat.cast_nonneg _
  have hpb : (0 : ℚ) ≤ (p.b : ℚ) := Nat.cast_nonneg _
  simp only [pixelCurrent, scalePixel]
  positivity

theorem ledCurrent_nonneg (m : CurrentModel) (c : Correction) (b : ℚ) (buf : List CRGB)
    (hm : 0 ≤ m.redmA ∧ 0 ≤ m.greenmA ∧ 0 ≤ m.bluemA)
    (hc : 0 ≤ c.r ∧ 0 ≤ c.g ∧ 0 ≤ c.b) (hb : 0 ≤ b) :
    0 ≤ ledCurrent m (render c b buf) := by
  induction buf with
  | nil => simp [ledCurrent, render]
  | cons p rest ih =>
    rw [ledCurrent_cons]
    exact add_nonneg (pixelCurrent_nonneg m c b p hm hc hb) ih

theorem registered_eq (s : Sketch) (h : s.leds.length ≤ s.driver.numLeds) :
    registered s = s.leds :=
  List.take_of_length_le h

/-- The frame `show` computes is the unlimited frame with the brightness
multiplied by the power scale. -/
theorem showFrame_eq (m : CurrentModel) (s : Sketch) :
    showFrame m s =
      render s.driver.correction ((s.driver.brightness : ℚ) * powerScale m s) (registered s) :=
  rfl

/-- With a budget set, the power scale is a factor in `(0, 1]` as soon as the
budget is positive. -/
theorem powerScale_range (m : CurrentModel) (s : Sketch) (budget : PowerBudget)
    (hb : s.driver.budget = some budget) (hpos : 0 < budget.maxMilliamps) :
    0 < powerScale m s ∧ powerScale m s ≤ 1 := by
  unfold powerScale
  rw [hb]
  simp only
  split
  · rename_i hgt
    have hE : 0 < estimateCurrent m (naiveFrame s) := lt_trans hpos hgt
    exact ⟨div_pos hpos hE, (div_le_one hE).mpr (le_of_lt hgt)⟩
  · exact ⟨one_pos, le_refl _⟩

theorem powerScale_eq (m : CurrentModel) (s : Sketch) (budget : PowerBudget)
    (hb : s.driver.budget = some budget) :
    powerScale m s =
      if estimateCurrent m (naiveFrame s) > budget.maxMilliamps then
        budget.maxMilliamps / estimateCurrent m (naiveFrame s)
      else 1 := by
  unfold powerScale
  rw [hb]

/-- The lights of the transmitted frame draw, by the estimate, at most the
budget, as soon as the current table, the correction and the budget are not
negative. -/
theorem ledCurrent_showFrame_le (m : CurrentModel) (s : Sketch) (budget : PowerBudget)
    (hb : s.driver.budget = some budget) (hpos : 0 < budget.maxMilliamps)
    (hm : 0 ≤ m.redmA ∧ 0 ≤ m.greenmA ∧ 0 ≤ m.bluemA) (ho : 0 ≤ m.overheadmA)
    (hc : 0 ≤ s.driver.correction.r ∧ 0 ≤ s.driver.correction.g ∧ 0 ≤ s.driver.correction.b) :
    ledCurrent m (showFrame m s) ≤ budget.maxMilliamps := by
  have hL : 0 ≤ ledCurrent m (naiveFrame s) :=
    ledCurrent_nonneg m _ _ _ hm hc (Nat.cast_nonneg _)
  have hmul : ledCurrent m (showFrame m s) = powerScale m s * ledCurrent m (naiveFrame s) := by
    rw [showFrame_eq, ledCurrent_mul]
    rfl
  rw [hmul, powerScale_eq m s budget hb]
  have hE : estimateCurrent m (naiveFrame s) = ledCurrent m (naiveFrame s) + m.overheadmA := rfl
  split
  · rename_i hgt
    have hEpos : 0 < estimateCurrent m (naiveFrame s) := lt_trans hpos hgt
    rw [div_mul_eq_mul_div, div_le_iff₀ hEpos]
    apply mul_le_mul_of_nonneg_left _ (le_of_lt hpos)
    rw [hE]
    linarith
  · rename_i hle
    rw [one_mul]
    have := not_lt.mp hle
    linarith

theorem estimateCurrent_showFrame (m : CurrentModel) (s : Sketch) :
    estimateCurrent m (showFrame m s) =
      powerScale m s * ledCurrent m (naiveFrame s) + m.overheadmA := by
  unfold estimateCurrent
  rw [showFrame_eq, ledCurrent_mul]
  rfl

/-- Whenever the limit applies and the fixed overhead is positive, the
estimate of the transmitted frame is above the budget: it is the budget plus
the share `1 - budget / estimate` of the overhead. -/
theorem estimateCurrent_showFrame_limited (m : CurrentModel) (s : Sketch) (budget : PowerBudget)
    (hb : s.driver.budget = some budget) (hpos : 0 < budget.maxMilliamps)
    (hgt : estimateCurrent m (naiveFrame s) > budget.maxMilliamps) (ho : 0 < m.overheadmA) :
    estimateCurrent m (showFrame m s) =
      budget.maxMilliamps
        + m.overheadmA * (1 - budget.maxMilliamps / estimateCurrent m (naiveFrame s)) ∧
    budget.maxMilliamps < estimateCurrent m (showFrame m s) := by
  have hEpos : 0 < estimateCurrent m (naiveFrame s) := lt_trans hpos hgt
  have hE : ledCurrent m (naiveFrame s) = estimateCurrent m (naiveFrame s) - m.overheadmA := by
    unfold estimateCurrent
    ring
  have heq : estimateCurrent m (showFrame m s) =
      budget.maxMilliamps
        + m.overheadmA * (1 - budget.maxMilliamps / estimateCurrent m (naiveFrame s)) := by
    rw [estimateCurrent_showFrame, powerScale_eq m s budget hb, if_pos hgt, hE]
    field_simp
    ring
  refine ⟨heq, ?_⟩
  rw [heq]
  have hfrac : budget.maxMilliamps / estimateCurrent m (naiveFrame s) < 1 :=
    (div_lt_one hEpos).mpr hgt
  have : 0 < m.overheadmA * (1 - budget.maxMilliamps / estimateCurrent m (naiveFrame s)) :=
    mul_pos ho (by linarith)
  linarith

/-! ## The frame of `setup()` followed by `loop()` -/

/-- The state in which `loop` calls `show`, when `setup` has just run. -/
theorem loop_setup_eq (L : Library) (busOk : Bool) (s0 : Sketch) :
    loop L busOk (setup L s0) =
      Except.ok (FastLED_show L busOk
        { setup L s0 with leds := s0.leds.set 1 this_color }) := by
  rw [loop_eq, setup_leds]

theorem oneLight_eq (x : CRGB) :
    (List.replicate NUM_LEDS CRGB.Black).set 1 x
      = CRGB.Black :: x :: List.replicate 296 CRGB.Black := by
  have h : NUM_LEDS = 296 + 1 + 1 := rfl
  rw [h, List.replicate_succ, List.replicate_succ]
  rfl

theorem pixelCurrent_Black (m : CurrentModel) (c : Correction) (b : ℚ) :
    pixelCurrent m (scalePixel c b CRGB.Black) = 0 := by
  simp [pixelCurrent, scalePixel_Black]

theorem ledCurrent_oneLight (m : CurrentModel) (c : Correction) (b : ℚ) (x : CRGB) :
    ledCurrent m (render c b ((List.replicate NUM_LEDS CRGB.Black).set 1 x))
      = pixelCurrent m (scalePixel c b x) := by
  rw [oneLight_eq, ledCurrent_cons, ledCurrent_cons, ledCurrent_replicate, pixelCurrent_Black]
  simp

/-- The unlimited frame in the state `loop` leaves after `setup`, from the
zero-initialised buffer. -/
theorem naiveFrame_loop_setup (L : Library) (busOk : Bool) (s0 : Sketch)
    (h0 : s0.leds = List.replicate NUM_LEDS CRGB.Black) :
    naiveFrame (FastLED_show L busOk { setup L s0 with leds := s0.leds.set 1 this_color })
      = render L.TypicalLEDStrip 40 ((List.replicate NUM_LEDS CRGB.Black).set 1 this_color) := by
  have hreg : registered (FastLED_show L busOk
      { setup L s0 with leds := s0.leds.set 1 this_color })
      = (List.replicate NUM_LEDS CRGB.Black).set 1 this_color := by
    unfold registered
    rw [FastLED_show_leds, FastLED_show_driver]
    show List.take (setup L s0).driver.numLeds (s0.leds.set 1 this_color) = _
    rw [setup_driver, h0]
    exact List.take_of_length_le
      (by rw [List.length_set, List.length_replicate]; exact Nat.le_refl 298)
  unfold naiveFrame
  rw [hreg, FastLED_show_driver]
  show render (setup L s0).driver.correction ((setup L s0).driver.brightness : ℚ) _ = _
  rw [setup_driver]
  norm_num

/-- The frame `show` computes does not depend on the sink. -/
theorem showFrame_congr (m : CurrentModel) (s t : Sketch) (hl : s.leds = t.leds)
    (hd : s.driver = t.driver) : showFrame m s = showFrame m t := by
  unfold showFrame frameBrightness powerScale naiveFrame registered
  rw [hl, hd]

/-- The frame sent by `loop` after `setup`, from the zero-initialised buffer,
when the estimate of the unlimited frame is within 1500 mA: it is the
unlimited frame. -/
theorem loop_setup_sink (L : Library) (s0 : Sketch)
    (h0 : s0.leds = List.replicate NUM_LEDS CRGB.Black)
    (hb : pixelCurrent L.current (scalePixel L.TypicalLEDStrip 40 this_color)
      + L.current.overheadmA ≤ 1500) :
    (FastLED_show L true { setup L s0 with leds := s0.leds.set 1 this_color }).sink
      = render L.TypicalLEDStrip 40 ((List.replicate NUM_LEDS CRGB.Black).set 1 this_color)
          :: s0.sink := by
  rw [FastLED_show_sink_ok]
  show showFrame L.current _ :: s0.sink = _
  have hnaive := naiveFrame_loop_setup L true s0 h0
  have hcongr := showFrame_congr L.current
    (FastLED_show L true { setup L s0 with leds := s0.leds.set 1 this_color })
    { setup L s0 with leds := s0.leds.set 1 this_color }
    (FastLED_show_leds _ _ _) (FastLED_show_driver _ _ _)
  have hbud : (FastLED_show L true
      { setup L s0 with leds := s0.leds.set 1 this_color }).driver.budget
      = some ⟨5, 1500⟩ := by
    rw [FastLED_show_driver]
    show (setup L s0).driver.budget = _
    rw [setup_driver]
  have hone : powerScale L.current (FastLED_show L true
      { setup L s0 with leds := s0.leds.set 1 this_color }) = 1 := by
    rw [powerScale_eq _ _ _ hbud, if_neg]
    rw [hnaive]
    unfold estimateCurrent
    rw [ledCurrent_oneLight]
    exact not_lt.mpr hb
  rw [← hcongr, showFrame_eq, hone, mul_one]
  exact congrArg (· :: s0.sink) hnaive

/-! ## The buffer write: round trip, frame condition, bounds -/

/-- C1. Round trip on the pixel buffer: for every index `i` with
`0 ≤ i ≤ 297`, every colour `p` and every state of the 298-pixel buffer,
`turnOnOneLight(p, i)` returns and reading `leds[i]` afterwards gives exactly
`p`, whatever the bus write inside `show` does. -/
theorem turnOnOneLight_round_trip (L : Library) (busOk : Bool) (p : CRGB) (i : Int) (s : Sketch)
    (hlen : s.leds.length = NUM_LEDS) (hi : 0 ≤ i ∧ i ≤ 297) :
    ∃ s', turnOnOneLight L busOk p i s = Except.ok s' ∧ s'.leds[i.toNat]? = some p := by
  have hN : (NUM_LEDS : Int) = 298 := rfl
  refine ⟨_, turnOnOneLight_inBounds L busOk p i s hi.1 (by omega), ?_⟩
  rw [FastLED_show_leds]
  apply List.getElem?_set_self
  have hN' : NUM_LEDS = 298 := rfl
  omega

/-- The round trip at index 5 of the power-up buffer, colour `(9, 8, 7)`. -/
theorem turnOnOneLight_round_trip_witness :
    boot.leds.length = NUM_LEDS ∧ ((0 : Int) ≤ 5 ∧ (5 : Int) ≤ 297) ∧
      ∃ s', turnOnOneLight sampleLibrary true ⟨9, 8, 7⟩ 5 boot = Except.ok s' ∧
        s'.leds[(5 : Int).toNat]? = some ⟨9, 8, 7⟩ :=
  ⟨boot_leds_length, by decide,
    turnOnOneLight_round_trip sampleLibrary true ⟨9, 8, 7⟩ 5 boot boot_leds_length (by decide)⟩

/-- C5. Frame condition of a pixel write: for every valid index `i` in
`[0, 297]`, every colour `p` and every state of the 298-pixel buffer,
`turnOnOneLight(p, i)` returns a state whose buffer is the old one with the
single element `i` replaced: its length is still 298 and `leds[j]` is unchanged
for every `j ≠ i`. -/
theorem turnOnOneLight_frame_condition (L : Library) (busOk : Bool) (p : CRGB) (i : Int)
    (s : Sketch) (hlen : s.leds.length = NUM_LEDS) (hi : 0 ≤ i ∧ i ≤ 297) :
    ∃ s', turnOnOneLight L busOk p i s = Except.ok s' ∧
      s'.leds = s.leds.set i.toNat p ∧
      s'.leds.length = 298 ∧
      ∀ j : Nat, (j : Int) ≠ i → s'.leds[j]? = s.leds[j]? := by
  have hN : (NUM_LEDS : Int) = 298 := rfl
  refine ⟨_, turnOnOneLight_inBounds L busOk p i s hi.1 (by omega), ?_, ?_, ?_⟩
  · rw [FastLED_show_leds]
  · rw [FastLED_show_leds]
    simpa using hlen
  · intro j hj
    rw [FastLED_show_leds]
    apply List.getElem?_set_ne
    omega

/-- The frame condition at the last index, 297, of the power-up buffer, with a failed bus write. -/
theorem turnOnOneLight_frame_condition_witness :
    boot.leds.length = NUM_LEDS ∧ ((0 : Int) ≤ 297 ∧ (297 : Int) ≤ 297) ∧
      ∃ s', turnOnOneLight sampleLibrary false ⟨9, 8, 7⟩ 297 boot = Except.ok s' ∧
        s'.leds = boot.leds.set (297 : Int).toNat ⟨9, 8, 7⟩ ∧
        s'.leds.length = 298 ∧
        ∀ j : Nat, (j : Int) ≠ 297 → s'.leds[j]? = boot.leds[j]? :=
  ⟨boot_leds_length, by decide,
    turnOnOneLight_frame_condition sampleLibrary false ⟨9, 8, 7⟩ 297 boot boot_leds_length
      (by decide)⟩

/-- C2, as stated, fails: at index 298 (one past the end) and at index -1 the
specified `PixelBuffer.set` rejects the write with an IndexError, but
`turnOnOneLight` does not: it has no bounds check and performs the
out-of-bounds write. -/
theorem turnOnOneLight_no_IndexError :
    PixelBuffer.set boot.leds 298 ⟨255, 0, 0⟩ = Except.error Fault.indexError ∧
    turnOnOneLight sampleLibrary true ⟨255, 0, 0⟩ 298 boot ≠ Except.error Fault.indexError ∧
    turnOnOneLight sampleLibrary true ⟨255, 0, 0⟩ 298 boot
      = Except.error Fault.outOfBoundsWrite ∧
    PixelBuffer.set boot.leds (-1) ⟨255, 0, 0⟩ = Except.error Fault.indexError ∧
    turnOnOneLight sampleLibrary true ⟨255, 0, 0⟩ (-1) boot ≠ Except.error Fault.indexError := by
  have hlen : (boot.leds.length : Int) = 298 := by rw [boot_leds_length]; rfl
  refine ⟨?_, ?_, ?_, ?_, ?_⟩
  · simp [PixelBuffer.set, hlen]
  · simp [turnOnOneLight, NUM_LEDS]
  · simp [turnOnOneLight, NUM_LEDS]
  · simp [PixelBuffer.set, hlen]
  · simp [turnOnOneLight, NUM_LEDS]

/-- C2, amended. For every index `i` outside `[0, N-1]` (`N = 298`), every
colour `p` and every state, `turnOnOneLight(p, i)` is not rejected with an
IndexError: the function has no bounds check, so the call is the raw array
write outside `leds`, which has no defined behaviour, and it does not return
a state. -/
theorem turnOnOneLight_out_of_range (L : Library) (busOk : Bool) (p : CRGB) (i : Int)
    (s : Sketch) (hi : i < 0 ∨ (NUM_LEDS : Int) ≤ i) :
    turnOnOneLight L busOk p i s = Except.error Fault.outOfBoundsWrite ∧
    turnOnOneLight L busOk p i s ≠ Except.error Fault.indexError ∧
    ∀ s', turnOnOneLight L busOk p i s ≠ Except.ok s' := by
  have h : turnOnOneLight L busOk p i s = Except.error Fault.outOfBoundsWrite := by
    unfold turnOnOneLight
    rw [if_neg]
    omega
  rw [h]
  exact ⟨rfl, by simp, by simp⟩

/-- The unchecked write at index 300, two past the end of `leds`. -/
theorem turnOnOneLight_out_of_range_witness :
    ((300 : Int) < 0 ∨ (NUM_LEDS : Int) ≤ 300) ∧
    turnOnOneLight sampleLibrary true ⟨1, 2, 3⟩ 300 boot = Except.error Fault.outOfBoundsWrite ∧
    turnOnOneLight sampleLibrary true ⟨1, 2, 3⟩ 300 boot ≠ Except.error Fault.indexError ∧
    ∀ s', turnOnOneLight sampleLibrary true ⟨1, 2, 3⟩ 300 boot ≠ Except.ok s' :=
  ⟨by decide, turnOnOneLight_out_of_range sampleLibrary true ⟨1, 2, 3⟩ 300 boot (by decide)⟩

/-- C3: the code at the claim's input. After one execution of `loop()` from the
all-black buffer, `leds[1]` holds `(0, 0, 224)`: the comma expression
`(74, 189, 224)` has the value 224, which converts to a colour as the code
`0x0000E0`.  It is not the colour `CRGB(74, 189, 224)` the comment announces. -/
theorem loop_stores_colorcode_224 (L : Library) (busOk : Bool) :
    ∃ s', loop L busOk boot = Except.ok s' ∧
      s'.leds[1]? = some (CRGB.ofColorCode 224) ∧
      s'.leds[1]? = some ⟨0, 0, 224⟩ ∧
      s'.leds[1]? ≠ some (CRGB.ofRGB 74 189 224) := by
  refine ⟨_, loop_eq L busOk boot, ?_⟩
  rw [FastLED_show_leds]
  have h : (boot.leds.set 1 this_color)[1]? = some ⟨0, 0, 224⟩ := by
    rw [List.getElem?_set_self (by rw [boot_leds_length]; decide), this_color_eq]
  show (boot.leds.set 1 this_color)[1]? = _ ∧ (boot.leds.set 1 this_color)[1]? = _ ∧
    (boot.leds.set 1 this_color)[1]? ≠ _
  rw [h]
  exact ⟨by decide, rfl, by decide⟩

/-- C8. The write of the program is in bounds: the index `loop()` passes to
`turnOnOneLight` is 1, which lies in `[0, NUM_LEDS - 1] = [0, 297]`, and
`setup()` followed by any number of `loop()` iterations always returns a
state: the out-of-range branch of the buffer write is never taken. -/
theorem loop_write_in_bounds (L : Library) (bus : List Bool) (s0 : Sketch) :
    this_index = 1 ∧ (NUM_LEDS : Int) - 1 = 297 ∧
    (0 ≤ this_index ∧ this_index ≤ (NUM_LEDS : Int) - 1) ∧
    (∃ s, runLoops L bus (setup L s0) = Except.ok s) ∧
    runLoops L bus (setup L s0) ≠ Except.error Fault.outOfBoundsWrite := by
  obtain ⟨s, hs, -, -⟩ := runLoops_spec L bus (setup L s0)
  refine ⟨rfl, rfl, by decide, ⟨s, hs⟩, ?_⟩
  rw [hs]
  simp

/-- C9. The function `loop()` is idempotent on the buffer: from every state
`s`, a first `loop()` returns a state `s1`; a second `loop()` from `s1`
returns a state with the same buffer; and any run of one or more iterations
from `s` ends with the buffer of `s1`. -/
theorem loop_idempotent (L : Library) (busOk : Bool) (rest : List Bool) (s : Sketch) :
    ∃ s1, loop L busOk s = Except.ok s1 ∧
      (∀ busOk2, ∃ s2, loop L busOk2 s1 = Except.ok s2 ∧ s2.leds = s1.leds) ∧
      ∃ sn, runLoops L (busOk :: rest) s = Except.ok sn ∧ sn.leds = s1.leds := by
  refine ⟨_, loop_eq L busOk s, ?_, ?_⟩
  · intro busOk2
    refine ⟨_, loop_eq L busOk2 _, ?_⟩
    simp [FastLED_show_leds, List.set_set]
  · obtain ⟨sn, hrun, -, hleds⟩ := runLoops_spec L (busOk :: rest) s
    refine ⟨sn, hrun, ?_⟩
    rw [hleds, FastLED_show_leds]
    simp

/-- C10. Reachable-state invariant: starting from the zero-initialised global
buffer, `setup()` followed by any number of `loop()` iterations returns a
state whose buffer has 298 entries, every entry at an index other than 1
being `(0,0,0)`. -/
theorem reachable_buffer_invariant (L : Library) (bus : List Bool) (s0 : Sketch)
    (h0 : s0.leds = List.replicate NUM_LEDS CRGB.Black) :
    ∃ s, runLoops L bus (setup L s0) = Except.ok s ∧ s.leds.length = 298 ∧
      ∀ j : Nat, j < 298 → j ≠ 1 → s.leds[j]? = some CRGB.Black := by
  obtain ⟨s, hrun, -, hleds⟩ := runLoops_spec L bus (setup L s0)
  refine ⟨s, hrun, ?_, ?_⟩
  · rw [hleds, setup_leds, h0]
    split
    · rw [List.length_replicate]; rfl
    · rw [List.length_set, List.length_replicate]; rfl
  · intro j hj hne
    rw [hleds, setup_leds, h0]
    split
    · exact List.getElem?_replicate_of_lt hj
    · rw [List.getElem?_set_ne (Ne.symm hne)]
      exact List.getElem?_replicate_of_lt hj

/-- The buffer invariant after `setup()` and three `loop()` iterations from power-up, the second with a failed bus write. -/
theorem reachable_buffer_invariant_witness :
    boot.leds = List.replicate NUM_LEDS CRGB.Black ∧
    ∃ s, runLoops sampleLibrary [true, false, true] (setup sampleLibrary boot) = Except.ok s ∧
      s.leds.length = 298 ∧
      ∀ j : Nat, j < 298 → j ≠ 1 → s.leds[j]? = some CRGB.Black :=
  ⟨rfl, reachable_buffer_invariant sampleLibrary [true, false, true] boot rfl⟩

/-- C7. Stored brightness is stable: `setup()` stores brightness 40, which the
clamp to `[0,255]` leaves as it is; `show` never changes the stored
brightness; every state reached from `setup()` by `loop()` and
`turnOnOneLight` calls has stored brightness 40; and such a run returns a
state whenever the indices passed are inside the buffer. -/
theorem stored_brightness_stable (L : Library) (s0 : Sketch) (calls : List Call) :
    (setup L s0).driver.brightness = 40 ∧
    min (max BRIGHTNESS 0) 255 = BRIGHTNESS ∧
    (∀ busOk s, (FastLED_show L busOk s).driver.brightness = s.driver.brightness) ∧
    (∀ s, runCalls L calls (setup L s0) = Except.ok s → s.driver.brightness = 40) ∧
    ((∀ c ∈ calls, c.inBounds) →
      ∃ s, runCalls L calls (setup L s0) = Except.ok s ∧ s.driver.brightness = 40) := by
  have hsetup : (setup L s0).driver.brightness = 40 := by rw [setup_driver]
  refine ⟨hsetup, by decide, ?_, ?_, ?_⟩
  · intro busOk s
    rw [FastLED_show_driver]
  · intro s hs
    rw [runCalls_driver L calls _ s hs, hsetup]
  · intro hin
    obtain ⟨s, hs⟩ := runCalls_inBounds L calls (setup L s0) hin
    exact ⟨s, hs, by rw [runCalls_driver L calls _ s hs, hsetup]⟩

/-! ## The transmitted frame: the end-to-end frame -/

/-- C4, as stated, fails. With the identity correction, brightness 40 and the
budget not exceeded, the frame `setup()` and `loop()` transmit has pixel 1
equal to `(0, 0, 224 × 40/255)`, not `(74, 189, 224)` scaled by 40/255: `loop`
stores the colour code 224.  With the correction FastLED calls
`TypicalLEDStrip`, which is what `setup()` installs, the blue channel of pixel 1
is `224 × 240/255 × 40/255 = 28672/867`, not `224 × 40/255 = 1792/51`. -/
theorem setup_loop_frame_differs :
    (∃ s f, loop identityLibrary true (setup identityLibrary boot) = Except.ok s ∧
      s.driver.brightness = 40 ∧ s.driver.correction = Correction.identity ∧
      estimateCurrent identityLibrary.current (naiveFrame s) ≤ 1500 ∧
      s.sink = [f] ∧ f[1]? = some ⟨0, 0, 1792 / 51⟩ ∧
      f[1]? ≠ some ⟨74 * (40 / 255), 189 * (40 / 255), 224 * (40 / 255)⟩) ∧
    (∃ s f, loop sampleLibrary true (setup sampleLibrary boot) = Except.ok s ∧
      s.driver.brightness = 40 ∧ s.driver.correction ≠ Correction.identity ∧
      estimateCurrent sampleLibrary.current (naiveFrame s) ≤ 1500 ∧
      s.sink = [f] ∧ f[1]? = some ⟨0, 0, 28672 / 867⟩ ∧
      f[1]? ≠ some ⟨74 * (40 / 255), 189 * (40 / 255), 224 * (40 / 255)⟩ ∧
      (28672 / 867 : ℚ) ≠ 224 * (40 / 255)) := by
  constructor
  · refine ⟨_, _, loop_setup_eq identityLibrary true boot, ?_, ?_, ?_,
      loop_setup_sink identityLibrary boot rfl ?_, ?_, ?_⟩
    · rw [FastLED_show_driver]; rfl
    · rw [FastLED_show_driver]; rfl
    · rw [naiveFrame_loop_setup identityLibrary true boot rfl]
      unfold estimateCurrent
      rw [ledCurrent_oneLight, this_color_eq]
      norm_num [pixelCurrent, scalePixel, identityLibrary, Correction.identity]
    · rw [this_color_eq]
      norm_num [pixelCurrent, scalePixel, identityLibrary, Correction.identity]
    · rw [getElem?_render, List.getElem?_set_self (by rw [List.length_replicate]; decide),
        this_color_eq]
      norm_num [scalePixel, identityLibrary, Correction.identity]
    · rw [getElem?_render, List.getElem?_set_self (by rw [List.length_replicate]; decide),
        this_color_eq]
      norm_num [scalePixel, identityLibrary, Correction.identity]
  · refine ⟨_, _, loop_setup_eq sampleLibrary true boot, ?_, ?_, ?_,
      loop_setup_sink sampleLibrary boot rfl ?_, ?_, ?_, ?_⟩
    · rw [FastLED_show_driver]; rfl
    · rw [FastLED_show_driver]
      show (⟨1, 176 / 255, 240 / 255⟩ : Correction) ≠ ⟨1, 1, 1⟩
      norm_num
    · rw [naiveFrame_loop_setup sampleLibrary true boot rfl]
      unfold estimateCurrent
      rw [ledCurrent_oneLight, this_color_eq]
      norm_num [pixelCurrent, scalePixel, sampleLibrary]
    · rw [this_color_eq]
      norm_num [pixelCurrent, scalePixel, sampleLibrary]
    · rw [getElem?_render, List.getElem?_set_self (by rw [List.length_replicate]; decide),
        this_color_eq]
      norm_num [scalePixel, sampleLibrary]
    · rw [getElem?_render, List.getElem?_set_self (by rw [List.length_replicate]; decide),
        this_color_eq]
      norm_num [scalePixel, sampleLibrary]
    · norm_num

/-- C4, amended. End-to-end frame: running `setup()` and then `loop()` on the
zero-initialised 298-pixel buffer, with brightness 40, the colour correction
`setup()` installs (`TypicalLEDStrip`) and a power budget that is not exceeded,
`show` transmits a frame of exactly 298 pixels in which pixel 1 equals the
colour held in `leds[1]` with each channel scaled by its correction factor and
by 40/255, and every other pixel is `(0,0,0)`. -/
theorem setup_loop_frame (L : Library) (s0 : Sketch)
    (h0 : s0.leds = List.replicate NUM_LEDS CRGB.Black)
    (hbudget : ∀ s, loop L true (setup L s0) = Except.ok s →
      estimateCurrent L.current (naiveFrame s) ≤ 1500) :
    ∃ s f c, loop L true (setup L s0) = Except.ok s ∧
      s.driver.brightness = 40 ∧ s.driver.correction = L.TypicalLEDStrip ∧
      s.sink = f :: s0.sink ∧ f.length = 298 ∧
      s.leds[1]? = some c ∧
      f[1]? = some ⟨c.r * L.TypicalLEDStrip.r * (40 / 255),
        c.g * L.TypicalLEDStrip.g * (40 / 255), c.b * L.TypicalLEDStrip.b * (40 / 255)⟩ ∧
      ∀ j : Nat, j < 298 → j ≠ 1 → f[j]? = some ⟨0, 0, 0⟩ := by
  have hb := hbudget _ (loop_setup_eq L true s0)
  rw [naiveFrame_loop_setup L true s0 h0] at hb
  unfold estimateCurrent at hb
  rw [ledCurrent_oneLight] at hb
  have hlen : (List.replicate NUM_LEDS CRGB.Black).length = 298 := List.length_replicate _ _
  refine ⟨_, _, this_color, loop_setup_eq L true s0, ?_, ?_, loop_setup_sink L s0 h0 hb,
    ?_, ?_, ?_, ?_⟩
  · rw [FastLED_show_driver]
    show (setup L s0).driver.brightness = 40
    rw [setup_driver]
  · rw [FastLED_show_driver]
    show (setup L s0).driver.correction = _
    rw [setup_driver]
  · rw [render_length, List.length_set, hlen]
  · rw [FastLED_show_leds]
    show (s0.leds.set 1 this_color)[1]? = _
    rw [h0]
    exact List.getElem?_set_self (by rw [hlen]; decide)
  · rw [getElem?_render, List.getElem?_set_self (by rw [hlen]; decide)]
    rfl
  · intro j hj hne
    have hj' : j < NUM_LEDS := hj
    rw [getElem?_render, List.getElem?_set_ne (Ne.symm hne),
      List.getElem?_replicate_of_lt hj']
    simp [scalePixel_Black]

/-- The end-to-end frame from power-up with the concrete library: the estimate of the one-light frame is within 1500 mA. -/
theorem setup_loop_frame_witness :
    boot.leds = List.replicate NUM_LEDS CRGB.Black ∧
    (∀ s, loop sampleLibrary true (setup sampleLibrary boot) = Except.ok s →
      estimateCurrent sampleLibrary.current (naiveFrame s) ≤ 1500) ∧
    ∃ s f c, loop sampleLibrary true (setup sampleLibrary boot) = Except.ok s ∧
      s.driver.brightness = 40 ∧ s.driver.correction = sampleLibrary.TypicalLEDStrip ∧
      s.sink = f :: boot.sink ∧ f.length = 298 ∧
      s.leds[1]? = some c ∧
      f[1]? = some ⟨c.r * sampleLibrary.TypicalLEDStrip.r * (40 / 255),
        c.g * sampleLibrary.TypicalLEDStrip.g * (40 / 255),
        c.b * sampleLibrary.TypicalLEDStrip.b * (40 / 255)⟩ ∧
      ∀ j : Nat, j < 298 → j ≠ 1 → f[j]? = some ⟨0, 0, 0⟩ :=
  have hb : ∀ s, loop sampleLibrary true (setup sampleLibrary boot) = Except.ok s →
      estimateCurrent sampleLibrary.current (naiveFrame s) ≤ 1500 := by
    intro s hs
    rw [loop_setup_eq] at hs
    cases hs
    rw [naiveFrame_loop_setup sampleLibrary true boot rfl]
    unfold estimateCurrent
    rw [ledCurrent_oneLight, this_color_eq]
    norm_num [pixelCurrent, scalePixel, sampleLibrary]
  ⟨rfl, hb, setup_loop_frame sampleLibrary boot rfl hb⟩

end FastLEDSingle
